import Mathlib

/-!
Shallow embedding of `main.py` from the TSDB-Prometheus-exporter repository.

The program is a single-file Prometheus-style exporter:
* `generate_metrics` (lines 29-71) reads five OS values via psutil and
  formats them as a fixed 15-line text exposition joined with "\n";
* `MetricsHandler.do_GET` (lines 83-101) serves the exposition on path "/"
  with status 200 and `Content-type: text/plain`, and answers 404 with an
  empty body on every other path;
* the `__main__` block (lines 104-120) reads `EXPORTER_HOST` /
  `EXPORTER_PORT` from the environment (with `int()` applied to the port),
  starts an `HTTPServer`, and wraps `serve_forever` in
  `except KeyboardInterrupt` / `except Exception` handlers that only log.

Python floats appear only as the already-rendered decimal text that the
f-string interpolates (e.g. "42.5"); byte counts are Python integers,
embedded as `Int`.  Fallible OS reads are embedded as `Except String`.
The dispatch of `http.server.BaseHTTPRequestHandler` (method name →
`do_<METHOD>`, missing handler → 501) and the per-request exception catch
of `socketserver.BaseServer.serve_forever` → `handle_error` are part of
the program semantics and are embedded where a claim needs them.
-/

/-- values the handler observes from the operating system on one request:
the rendered `psutil.cpu_percent()` value, `virtual_memory().total` and
`.available`, and `disk_usage("/").total` and `.used` (main.py lines 43-51). -/
structure OsReadings where
  cpu_percent : String
  mem_total : Int
  mem_available : Int
  disk_total : Int
  disk_used : Int
deriving DecidableEq, Repr

/-- the five values of one scrape, as computed by `generate_metrics`
lines 43-51: `memory_used = memory_total - available`, the other four are
taken from the OS readings unchanged. -/
structure Snapshot where
  cpu_usage : String
  memory_total : Int
  memory_used : Int
  disk_total : Int
  disk_used : Int
deriving DecidableEq, Repr

/-- the snapshot computation of `generate_metrics` (main.py lines 43-51). -/
def sample (r : OsReadings) : Snapshot :=
  { cpu_usage := r.cpu_percent
  , memory_total := r.mem_total
  , memory_used := r.mem_total - r.mem_available
  , disk_total := r.disk_total
  , disk_used := r.disk_used }

/-- the `metrics` list literal of `generate_metrics` (main.py lines 53-69):
for each of the five metrics, a HELP line, a TYPE line and a value line,
in the fixed order cpu_usage, memory_total, memory_used, disk_total,
disk_used. -/
def metricsLines (r : OsReadings) : List String :=
  let s := sample r
  [ "# HELP cpu_usage CPU usage percentage"
  , "# TYPE cpu_usage gauge"
  , "cpu_usage " ++ s.cpu_usage
  , "# HELP memory_total Total system memory in bytes"
  , "# TYPE memory_total gauge"
  , "memory_total " ++ toString s.memory_total
  , "# HELP memory_used Used system memory in bytes"
  , "# TYPE memory_used gauge"
  , "memory_used " ++ toString s.memory_used
  , "# HELP disk_total Total disk space in bytes"
  , "# TYPE disk_total gauge"
  , "disk_total " ++ toString s.disk_total
  , "# HELP disk_used Used disk space in bytes"
  , "# TYPE disk_used gauge"
  , "disk_used " ++ toString s.disk_used ]

/-- `generate_metrics` (main.py lines 29-71): `"\n".join(metrics)`. -/
def generate_metrics (r : OsReadings) : String :=
  String.intercalate "\n" (metricsLines r)

/-- outcome of handling one request: status code, the `Content-type`
header if one was sent, the response body, and whether `generate_metrics`
(and hence the OS metric reads) was invoked. -/
structure GetOutcome where
  status : Nat
  contentType : Option String
  body : String
  sampled : Bool
deriving DecidableEq, Repr

/-- `MetricsHandler.do_GET` (main.py lines 83-101).  Path "/" calls
`generate_metrics` (so a failing OS read propagates as an exception) and
responds 200 / text/plain with the exposition body; every other path
responds 404 with an empty body and no Content-type header. -/
def do_GET (path : String) (os : Except String OsReadings) :
    Except String GetOutcome :=
  if path = "/" then
    match os with
    | Except.ok r =>
        Except.ok { status := 200, contentType := some "text/plain"
                  , body := generate_metrics r, sampled := true }
    | Except.error e => Except.error e
  else
    Except.ok { status := 404, contentType := none, body := "", sampled := false }

/-- response of `BaseHTTPRequestHandler.send_error(501, ...)` for a method
the handler class does not implement.  The standard library sends the
message `Unsupported method (<method>)` inside an HTML error page with
Content-type `text/html;charset=utf-8`; the body is embedded as the bare
message. -/
def unsupportedMethod (method : String) : GetOutcome :=
  { status := 501
  , contentType := some "text/html;charset=utf-8"
  , body := "Unsupported method (" ++ method ++ ")"
  , sampled := false }

/-- dispatch of `BaseHTTPRequestHandler.handle_one_request`: the request
method `M` is routed to `do_<M>` when the handler class defines it,
otherwise answered with a 501 error.  `MetricsHandler` defines only
`do_GET` (main.py lines 74-101). -/
def handle_one_request (method path : String)
    (os : Except String OsReadings) : Except String GetOutcome :=
  if method = "GET" then do_GET path os
  else Except.ok (unsupportedMethod method)

/-- one observable event of the serve loop: a completed response, or the
`socketserver.BaseServer.handle_error` report of an exception that escaped
the handler (it is logged and the loop continues). -/
inductive ServedEvent where
  | response (o : GetOutcome)
  | handlerError (msg : String)
deriving DecidableEq, Repr

/-- one request as the serve loop sees it: method, path, and the result
the OS reads would deliver while handling it. -/
structure Request where
  method : String
  path : String
  os : Except String OsReadings

/-- `serve_forever` over a finite request stream: each request is handled
independently; an exception raised while handling is caught per-request by
`handle_error` (logged) and the loop goes on to the next request. -/
def serve_forever : List Request → List ServedEvent
  | [] => []
  | q :: rest =>
    (match handle_one_request q.method q.path q.os with
     | Except.ok o => ServedEvent.response o
     | Except.error e => ServedEvent.handlerError e) :: serve_forever rest

/-- true when the character list has no two consecutive underscores. -/
def noAdjUnderscore : List Char → Bool
  | '_' :: '_' :: _ => false
  | _ :: rest => noAdjUnderscore rest
  | [] => true

/-- true when the character list matches the digit part of a Python
decimal integer literal: nonempty, first and last characters are digits,
every character is a digit or an underscore, and underscores are not
adjacent (so each underscore sits between two digits). -/
def validDigits (cs : List Char) : Bool :=
  match cs with
  | [] => false
  | c :: _ =>
      c.isDigit && ((cs.getLast?.map Char.isDigit).getD false)
        && cs.all (fun d => d.isDigit || d = '_') && noAdjUnderscore cs

/-- numeric value of a digit run, skipping underscore separators. -/
def digitsVal (cs : List Char) : Nat :=
  cs.foldl (fun a c => if c = '_' then a else a * 10 + (c.toNat - 48)) 0

/-- surrounding-whitespace strip, as `int()` applies to its string
argument. -/
def stripChars (cs : List Char) : List Char :=
  ((cs.dropWhile Char.isWhitespace).reverse.dropWhile Char.isWhitespace).reverse

/-- CPython's `int()` applied to a string (main.py line 12 applies it to
the `EXPORTER_PORT` value): surrounding whitespace is stripped, an
optional sign precedes one or more decimal digits with optional single
underscore separators between digits; any other string raises
`ValueError`, embedded as `none`. -/
def pythonInt (s : String) : Option Int :=
  match stripChars s.data with
  | '-' :: rest => if validDigits rest then some (-(digitsVal rest : Int)) else none
  | '+' :: rest => if validDigits rest then some (digitsVal rest : Int) else none
  | cs => if validDigits cs then some (digitsVal cs : Int) else none

/-- result of executing main.py lines 11-12 at import time: the host
falls back to "0.0.0.0" and the port string (default "8081") goes through
`int()`; a `ValueError` there is uncaught, so the module never finishes
importing. -/
inductive ImportResult where
  | failed
  | ok (host : String) (port : Int)
deriving DecidableEq, Repr

/-- configuration read of main.py lines 11-12, from the environment values
of `EXPORTER_HOST` and `EXPORTER_PORT` (`none` = variable unset). -/
def importConfig (hostEnv portEnv : Option String) : ImportResult :=
  let host := hostEnv.getD "0.0.0.0"
  match pythonInt (portEnv.getD "8081") with
  | some p => ImportResult.ok host p
  | none => ImportResult.failed

/-- how the `try` block of main.py lines 113-116 ends: `serve_forever`
interrupted by `KeyboardInterrupt`, the `HTTPServer(...)` constructor
raising on bind, or some other exception escaping the block. -/
inductive ServeOutcome where
  | interrupted
  | bindFailed (msg : String)
  | serveFailed (msg : String)
deriving DecidableEq, Repr

/-- observable result of one process run: whether the listening socket was
bound, the lines the program logged, and the process exit status. -/
structure ProcessTrace where
  bound : Bool
  logs : List String
  exitCode : Nat
deriving DecidableEq, Repr

/-- the `__main__` block (main.py lines 104-120).  An invalid port kills
the import with an uncaught `ValueError` (exit 1, nothing bound, nothing
logged by the program).  Otherwise the startup line is logged, then the
`try` block runs: `KeyboardInterrupt` logs the shutdown line, any other
exception logs `An error occurred: <e>`; both handlers fall through to the
end of the script, so the process exits with status 0 in every caught
case. -/
def runProcess (hostEnv portEnv : Option String) (out : ServeOutcome) :
    ProcessTrace :=
  match importConfig hostEnv portEnv with
  | ImportResult.failed => { bound := false, logs := [], exitCode := 1 }
  | ImportResult.ok host port =>
    let startLine := "Starting exporter on " ++ host ++ ":" ++ toString port
    let runningLine :=
      "Exporter running on http://" ++ host ++ ":" ++ toString port ++ "/"
    match out with
    | ServeOutcome.bindFailed msg =>
        { bound := false
        , logs := [startLine, "An error occurred: " ++ msg]
        , exitCode := 0 }
    | ServeOutcome.interrupted =>
        { bound := true
        , logs := [startLine, runningLine, "Shutting down the exporter."]
        , exitCode := 0 }
    | ServeOutcome.serveFailed msg =>
        { bound := true
        , logs := [startLine, runningLine, "An error occurred: " ++ msg]
        , exitCode := 0 }

/-- readings used as concrete scrape inputs in closed statements. -/
def someReadings : OsReadings :=
  { cpu_percent := "1.0", mem_total := 4, mem_available := 2
  , disk_total := 10, disk_used := 5 }

/-- readings of the worked example of the spec: 42.5 % CPU, 16 GB total
memory of which 8 GB available (so 8 GB used). -/
def exampleReadings : OsReadings :=
  { cpu_percent := "42.5", mem_total := 16000000000
  , mem_available := 8000000000
  , disk_total := 500107862016, disk_used := 250053931008 }

/-- with both environment variables unset the module-level configuration
evaluates to host "0.0.0.0" and port 8081. -/
theorem importConfig_default :
    importConfig none none = ImportResult.ok "0.0.0.0" 8081 := by decide

/-- length of the event list produced by the serve loop. -/
theorem serve_forever_length (qs : List Request) :
    (serve_forever qs).length = qs.length := by
  induction qs with
  | nil => rfl
  | cons q rest ih => simp [serve_forever, ih]

/-- C1: a request with path exactly "/" is answered with status 200, a
`Content-type: text/plain` header, and a body equal to the 15-line
exposition text — HELP, TYPE and value line for each of cpu_usage,
memory_total, memory_used, disk_total, disk_used in that order — joined
with single newlines and without a trailing newline. -/
theorem root_request_serves_exposition (r : OsReadings) :
    do_GET "/" (Except.ok r) = Except.ok
      { status := 200
      , contentType := some "text/plain"
      , body := String.intercalate "\n"
          [ "# HELP cpu_usage CPU usage percentage"
          , "# TYPE cpu_usage gauge"
          , "cpu_usage " ++ r.cpu_percent
          , "# HELP memory_total Total system memory in bytes"
          , "# TYPE memory_total gauge"
          , "memory_total " ++ toString r.mem_total
          , "# HELP memory_used Used system memory in bytes"
          , "# TYPE memory_used gauge"
          , "memory_used " ++ toString (r.mem_total - r.mem_available)
          , "# HELP disk_total Total disk space in bytes"
          , "# TYPE disk_total gauge"
          , "disk_total " ++ toString r.disk_total
          , "# HELP disk_used Used disk space in bytes"
          , "# TYPE disk_used gauge"
          , "disk_used " ++ toString r.disk_used ]
      , sampled := true } := rfl

/-- C2: every request whose path is not exactly "/" is answered with
status 404 and an empty body (and no Content-type header). -/
theorem non_root_request_is_404 (p : String) (hp : p ≠ "/")
    (os : Except String OsReadings) :
    do_GET p os = Except.ok
      { status := 404, contentType := none, body := "", sampled := false } := by
  simp [do_GET, hp]

/-- C2 witness at the concrete path "/metrics". -/
theorem non_root_request_is_404_witness :
    ("/metrics" : String) ≠ "/" ∧
    do_GET "/metrics" (Except.error "psutil failed") = Except.ok
      { status := 404, contentType := none, body := "", sampled := false } :=
  ⟨by decide, non_root_request_is_404 "/metrics" (by decide)
      (Except.error "psutil failed")⟩

/-- C3: whenever the OS reports 0 ≤ available ≤ total memory and disk
used ≤ disk total, the emitted memory_used value is at most memory_total
and the emitted disk_used value is at most disk_total. -/
theorem sample_usage_bounds (r : OsReadings)
    (hav : 0 ≤ r.mem_available) (ham : r.mem_available ≤ r.mem_total)
    (hd : r.disk_used ≤ r.disk_total) :
    (sample r).memory_used ≤ (sample r).memory_total ∧
    (sample r).disk_used ≤ (sample r).disk_total := by
  refine ⟨?_, ?_⟩ <;> simp only [sample] <;> omega

/-- C3 witness at concrete readings 0 ≤ 2 ≤ 4 and 5 ≤ 10. -/
theorem sample_usage_bounds_witness :
    (0 ≤ someReadings.mem_available
      ∧ someReadings.mem_available ≤ someReadings.mem_total
      ∧ someReadings.disk_used ≤ someReadings.disk_total) ∧
    ((sample someReadings).memory_used ≤ (sample someReadings).memory_total ∧
     (sample someReadings).disk_used ≤ (sample someReadings).disk_total) :=
  ⟨⟨by decide, by decide, by decide⟩,
   sample_usage_bounds someReadings (by decide) (by decide) (by decide)⟩

/-- C4: on a machine reporting 42.5 % CPU, 16000000000 bytes of memory of
which 8000000000 are available (hence 8000000000 used), the body served
for path "/" is the newline-join of the exposition lines, and those lines
include `cpu_usage 42.5`, `memory_total 16000000000` and
`memory_used 8000000000`. -/
theorem example_scrape_lines :
    do_GET "/" (Except.ok exampleReadings) = Except.ok
      { status := 200, contentType := some "text/plain"
      , body := String.intercalate "\n" (metricsLines exampleReadings)
      , sampled := true }
    ∧ "cpu_usage 42.5" ∈ metricsLines exampleReadings
    ∧ "memory_total 16000000000" ∈ metricsLines exampleReadings
    ∧ "memory_used 8000000000" ∈ metricsLines exampleReadings :=
  ⟨rfl, by decide, by decide, by decide⟩

/-- C5 counterexample: a POST request for "/" is not routed like a GET —
the base handler answers 501 Unsupported method, not the 200 metrics
response. -/
theorem post_root_differs_from_get :
    handle_one_request "POST" "/" (Except.ok someReadings)
      ≠ do_GET "/" (Except.ok someReadings)
    ∧ handle_one_request "POST" "/" (Except.ok someReadings)
      = Except.ok (unsupportedMethod "POST")
    ∧ (unsupportedMethod "POST").status = 501 := by
  refine ⟨?_, rfl, rfl⟩
  intro h
  simp [handle_one_request, do_GET, unsupportedMethod] at h

/-- C5 amended: only GET requests reach `do_GET`; a GET request is routed
by path exactly as the claim describes, while a request with any other
method is answered with a 501 Unsupported method error. -/
theorem method_dispatch (method path : String)
    (os : Except String OsReadings) :
    (method = "GET" → handle_one_request method path os = do_GET path os)
    ∧ (method ≠ "GET" →
        handle_one_request method path os = Except.ok (unsupportedMethod method)
        ∧ (unsupportedMethod method).status = 501) := by
  constructor
  · intro h; simp [handle_one_request, h]
  · intro h; exact ⟨by simp [handle_one_request, h], rfl⟩

/-- C5 amended witness at a GET and at a DELETE request. -/
theorem method_dispatch_witness :
    ("GET" : String) = "GET" ∧ ("DELETE" : String) ≠ "GET" ∧
    handle_one_request "GET" "/x" (Except.ok someReadings)
      = do_GET "/x" (Except.ok someReadings) ∧
    handle_one_request "DELETE" "/" (Except.ok someReadings)
      = Except.ok (unsupportedMethod "DELETE") :=
  ⟨rfl, by decide,
   (method_dispatch "GET" "/x" (Except.ok someReadings)).1 rfl,
   ((method_dispatch "DELETE" "/" (Except.ok someReadings)).2 (by decide)).1⟩

/-- C6: a non-numeric `EXPORTER_PORT` value makes `int()` raise at import
time: the process exits with status 1 before any socket is bound and
before any log line is written — there is no fallback port. -/
theorem invalid_port_fails_startup (hostEnv : Option String) (s : String)
    (out : ServeOutcome) (h : pythonInt s = none) :
    runProcess hostEnv (some s) out =
      { bound := false, logs := [], exitCode := 1 } := by
  simp [runProcess, importConfig, h]

/-- C6 witness at the concrete port string "abc". -/
theorem invalid_port_fails_startup_witness :
    pythonInt "abc" = none ∧
    runProcess none (some "abc") ServeOutcome.interrupted =
      { bound := false, logs := [], exitCode := 1 } :=
  ⟨by decide,
   invalid_port_fails_startup none "abc" ServeOutcome.interrupted (by decide)⟩

/-- C7 counterexample: when the `HTTPServer` constructor fails to bind,
the `except Exception` handler logs the error and the script runs off its
end, so the process exits with status 0 — not a non-zero status. -/
theorem bind_failure_exits_zero :
    (runProcess none none
        (ServeOutcome.bindFailed "[Errno 98] Address already in use")).exitCode
      = 0 := rfl

/-- C7 amended: on an interrupt the process logs the shutdown line and
exits 0; on a fatal error such as a bind failure it logs
`An error occurred: <e>` and also exits 0 (the catch-all only logs, it
never sets a non-zero exit status). -/
theorem lifecycle_exit_codes (msg : String) :
    runProcess none none ServeOutcome.interrupted =
      { bound := true
      , logs := [ "Starting exporter on 0.0.0.0:8081"
                , "Exporter running on http://0.0.0.0:8081/"
                , "Shutting down the exporter." ]
      , exitCode := 0 }
    ∧ runProcess none none (ServeOutcome.bindFailed msg) =
      { bound := false
      , logs := [ "Starting exporter on 0.0.0.0:8081"
                , "An error occurred: " ++ msg ]
      , exitCode := 0 } :=
  ⟨rfl, rfl⟩

/-- C8: a request whose handling raises is reported by the per-request
catch of the serve loop (the error is logged as a handler-error event);
the loop is not torn down and every remaining request is still served,
one event per request. -/
theorem handler_error_does_not_stop_loop (q : Request) (e : String)
    (rest : List Request)
    (h : handle_one_request q.method q.path q.os = Except.error e) :
    serve_forever (q :: rest)
      = ServedEvent.handlerError e :: serve_forever rest
    ∧ (serve_forever (q :: rest)).length = rest.length + 1 := by
  constructor
  · simp [serve_forever, h]
  · simp [serve_forever_length]

/-- C8 witness: a failing metrics read on "/" is reported and the next
request is still answered. -/
theorem handler_error_does_not_stop_loop_witness :
    handle_one_request "GET" "/" (Except.error "psutil read failed")
      = Except.error "psutil read failed" ∧
    serve_forever
        [ { method := "GET", path := "/"
          , os := Except.error "psutil read failed" }
        , { method := "GET", path := "/", os := Except.ok someReadings } ]
      = ServedEvent.handlerError "psutil read failed"
          :: serve_forever
              [{ method := "GET", path := "/", os := Except.ok someReadings }] :=
  ⟨rfl,
   (handler_error_does_not_stop_loop
      { method := "GET", path := "/", os := Except.error "psutil read failed" }
      "psutil read failed"
      [{ method := "GET", path := "/", os := Except.ok someReadings }] rfl).1⟩

/-- C9: the exposition text is a deterministic function of the five OS
readings — two calls observing the same CPU rendering, memory total,
memory available, disk total and disk used produce identical strings. -/
theorem generate_metrics_deterministic (r₁ r₂ : OsReadings)
    (h1 : r₁.cpu_percent = r₂.cpu_percent)
    (h2 : r₁.mem_total = r₂.mem_total)
    (h3 : r₁.mem_available = r₂.mem_available)
    (h4 : r₁.disk_total = r₂.disk_total)
    (h5 : r₁.disk_used = r₂.disk_used) :
    generate_metrics r₁ = generate_metrics r₂ := by
  have hr : r₁ = r₂ := by
    cases r₁; cases r₂
    dsimp at h1 h2 h3 h4 h5
    subst h1 h2 h3 h4 h5
    rfl
  rw [hr]

/-- C9 witness at two equal concrete readings. -/
theorem generate_metrics_deterministic_witness :
    generate_metrics someReadings = generate_metrics someReadings :=
  generate_metrics_deterministic someReadings someReadings
    rfl rfl rfl rfl rfl

/-- C10: on a path other than "/" the handler never invokes
`generate_metrics` (no OS read happens), and the 404 response is the same
whatever the OS metric state — even when the OS reads would fail. -/
theorem non_root_reads_nothing (p : String) (hp : p ≠ "/")
    (os₁ os₂ : Except String OsReadings) :
    do_GET p os₁ = Except.ok
      { status := 404, contentType := none, body := "", sampled := false }
    ∧ do_GET p os₁ = do_GET p os₂ := by
  constructor <;> simp [do_GET, hp]

/-- C10 witness at "/favicon.ico" with a failing and a succeeding OS
state. -/
theorem non_root_reads_nothing_witness :
    ("/favicon.ico" : String) ≠ "/" ∧
    (do_GET "/favicon.ico" (Except.error "no disk access") = Except.ok
      { status := 404, contentType := none, body := "", sampled := false }
    ∧ do_GET "/favicon.ico" (Except.error "no disk access")
      = do_GET "/favicon.ico" (Except.ok someReadings)) :=
  ⟨by decide,
   non_root_reads_nothing "/favicon.ico" (by decide)
     (Except.error "no disk access") (Except.ok someReadings)⟩
